import Mathlib

/-!
# Segments: core repository operations and HTTP handlers

A shallow embedding of `internal/core/segments.go` and `cmd/segments.go`.

* Go `int` values (ids, counts, offsets) are `Int`; no arithmetic is done on
  them, so no wrap-around is involved.
* Go multi-value returns `(v, err)` are tuples whose last component is an
  `Option HTTPError` (`none` is Go's `nil` error), so the value returned next to
  an error stays visible.
* The storage engine, the UUID generator, `makeSearchQuery`, `pqErrMsg` and
  the SQL statement texts are external to the two files; they are parameters
  (`Storage`, `Queries`).  The engine is an arbitrary deterministic transition
  system over a state type `σ`.
* Every call that reaches the engine is appended to a trace carried next to the
  engine state, so statements about which storage calls were (not) made can be
  phrased.  Logging (`c.log.Printf`) is not a storage action and is left out.
-/

namespace Listmonk

variable {σ : Type}

/-! ## Data model -/

/-- Go `models.Segment`; timestamps are kept as opaque text. -/
structure Segment where
  ID : Int
  UUID : String
  Name : String
  SegmentQuery : String
  Description : String
  CreatedAt : String
  UpdatedAt : String
  Total : Int
deriving DecidableEq, Repr

/-- Go zero value `models.Segment{}`. -/
def Segment.zero : Segment :=
  { ID := 0, UUID := "", Name := "", SegmentQuery := "", Description := "",
    CreatedAt := "", UpdatedAt := "", Total := 0 }

/-- Go `http.StatusOK`. -/
def StatusOK : Nat := 200

/-- Go `http.StatusBadRequest`. -/
def StatusBadRequest : Nat := 400

/-- Go `http.StatusInternalServerError`. -/
def StatusInternalServerError : Nat := 500

/-- Result of `i18n.T` / `i18n.Ts`: the message key and the key/value
parameters handed to the translator, kept unformatted. -/
structure Message where
  Key : String
  Params : List String
deriving DecidableEq, Repr

/-- Go `i18n.T(key)`. -/
def T (key : String) : Message := { Key := key, Params := [] }

/-- Go `i18n.Ts(key, params...)`. -/
def Ts (key : String) (params : List String) : Message := { Key := key, Params := params }

/-- Go `*echo.HTTPError`. -/
structure HTTPError where
  Code : Nat
  Message : Message
deriving DecidableEq, Repr

/-- Go `echo.NewHTTPError(code, message)`. -/
def NewHTTPError (code : Nat) (msg : Message) : HTTPError := { Code := code, Message := msg }

/-- An error value handed back by the storage engine or by the UUID generator. -/
structure DBError where
  text : String
deriving DecidableEq, Repr

/-! ## `fmt.Sprintf` on string operands -/

/-- One piece of a format string: literal text, the verb `%s`, or `%%`. -/
inductive FmtPiece where
  | lit (s : String)
  | verbS
  | percent
deriving DecidableEq, Repr

/-- A format string, given as its sequence of pieces.  Only the directives
`%s` and `%%` are represented; flags, widths and other verbs are excluded by
the type. -/
abbrev Format := List FmtPiece

/-- Go `fmt.Sprintf(format, args...)` for string operands: every `%s` consumes
the next operand, a `%s` without operand prints `%!s(MISSING)`, and operands
left over at the end are reported as `%!(EXTRA string=a, string=b)`. -/
def Sprintf : Format → List String → String
  | [], [] => ""
  | [], a :: as => "%!(EXTRA " ++ ", ".intercalate ((a :: as).map fun x => "string=" ++ x) ++ ")"
  | .lit s :: f, as => s ++ Sprintf f as
  | .percent :: f, as => "%" ++ Sprintf f as
  | .verbS :: f, [] => "%!s(MISSING)" ++ Sprintf f []
  | .verbS :: f, a :: as => a ++ Sprintf f as

/-! ## External collaborators -/

/-- One call made to the storage engine (or to the UUID generator), with the
arguments it was given. -/
inductive Action where
  | getSegments (orderBy : String)
  | select (stmt : String) (id : Int) (uu : Option String) (queryStr : String)
      (offset limit : Int)
  | newV4
  | createSegment (uuid name segmentQuery description : String)
  | updateSegment (id : Int) (name segmentQuery description : String)
  | deleteSegments (ids : List Int)
  | beginTxx (readOnly : Bool) (opened : Bool)
  | txGet (stmt : String) (succeeded : Bool)
  | txRollback
deriving DecidableEq, Repr

/-- The storage engine and the UUID generator as seen by `Core`: each call
maps the engine state to a reply and a new engine state.
* `getSegments` is `c.q.GetSegments.Select(&out, orderBy)`;
* `select` is `c.db.Select(&out, stmt, id, uu, queryStr, offset, limit)`, where
  `uu` is the `interface{}` operand (`none` is `nil`);
* `newV4` is `uuid.NewV4()` followed by `.String()`;
* `createSegment` is `c.q.CreateSegment.Get(&newID, uuid, name, query, description)`;
* `updateSegment` is `c.q.UpdateSegment.Exec(id, name, query, description)`
  followed by `res.RowsAffected()` with its error dropped;
* `deleteSegments` is `c.q.DeleteSegments.Exec(pq.Array(ids))`;
* `beginTxx` is `c.db.BeginTxx(ctx, &sql.TxOptions{ReadOnly: readOnly})`;
* `txGet` is `tx.Get(&total, stmt)`; `txRollback` is `tx.Rollback()`. -/
structure Storage (σ : Type) where
  getSegments : σ → String → Except DBError (List Segment) × σ
  select : σ → String → Int → Option String → String → Int → Int →
    Except DBError (List Segment) × σ
  newV4 : σ → Except DBError String × σ
  createSegment : σ → String → String → String → String → Except DBError Int × σ
  updateSegment : σ → Int → String → String → String → Except DBError Int × σ
  deleteSegments : σ → List Int → Except DBError Unit × σ
  beginTxx : σ → Bool → Except DBError Unit × σ
  txGet : σ → String → Except DBError Int × σ
  txRollback : σ → σ

/-- The parts of `Core` other than the engine handle: the statement texts of
`c.q`, and the helpers `makeSearchQuery` and `pqErrMsg` defined elsewhere in
package `core`. -/
structure Queries where
  QuerySegments : String
  CountSubscribersByQuery : Format
  makeSearchQuery : String → String → String → String → List String → String × String
  pqErrMsg : DBError → String

/-- Engine state together with the trace of storage calls made so far. -/
structure St (σ : Type) where
  db : σ
  trace : List Action

/-- Append one storage call to the trace and install the new engine state. -/
def St.record {σ : Type} (s : St σ) (a : Action) (db : σ) : St σ :=
  { db := db, trace := s.trace ++ [a] }

/-! ## `internal/core/segments.go` -/

/-- Go `Core.GetSegments`. -/
def GetSegments (W : Storage σ) (q : Queries) (s : St σ) :
    (List Segment × Option HTTPError) × St σ :=
  match W.getSegments s.db "id" with
  | (.error err, db) =>
    (([], some (NewHTTPError StatusInternalServerError
        (Ts "globals.messages.errorFetching"
          ["name", "{globals.terms.segments}", "error", q.pqErrMsg err]))),
      s.record (.getSegments "id") db)
  | (.ok out, db) => ((out, none), s.record (.getSegments "id") db)

/-- Go `Core.QuerySegments`. -/
def QuerySegments (W : Storage σ) (q : Queries) (searchStr orderBy order : String)
    (offset limit : Int) (s : St σ) : (List Segment × Int × Option HTTPError) × St σ :=
  let (queryStr, stmt) :=
    q.makeSearchQuery searchStr orderBy order q.QuerySegments ["name", "created_at", "updated_at"]
  match W.select s.db stmt 0 (some "") queryStr offset limit with
  | (.error err, db) =>
    (([], 0, some (NewHTTPError StatusInternalServerError
        (Ts "globals.messages.errorFetching"
          ["name", "{globals.terms.segments}", "error", q.pqErrMsg err]))),
      s.record (.select stmt 0 (some "") queryStr offset limit) db)
  | (.ok out, db) =>
    let total := match out with
      | [] => 0
      | first :: _ => first.Total
    ((out, total, none), s.record (.select stmt 0 (some "") queryStr offset limit) db)

/-- Go `Core.GetSegment`. -/
def GetSegment (W : Storage σ) (q : Queries) (id : Int) (uuid : String) (s : St σ) :
    (Segment × Option HTTPError) × St σ :=
  let uu : Option String := if uuid ≠ "" then some uuid else none
  let (queryStr, stmt) := q.makeSearchQuery "" "" "" q.QuerySegments []
  match W.select s.db stmt id uu queryStr 0 1 with
  | (.error err, db) =>
    ((Segment.zero, some (NewHTTPError StatusInternalServerError
        (Ts "globals.messages.errorFetching"
          ["name", "{globals.terms.segments}", "error", q.pqErrMsg err]))),
      s.record (.select stmt id uu queryStr 0 1) db)
  | (.ok res, db) =>
    match res with
    | [] =>
      ((Segment.zero, some (NewHTTPError StatusBadRequest
          (Ts "globals.messages.notFound" ["name", "{globals.terms.segment}"]))),
        s.record (.select stmt id uu queryStr 0 1) db)
    | out :: _ => ((out, none), s.record (.select stmt id uu queryStr 0 1) db)

/-- Go `Core.CreateSegment`. -/
def CreateSegment (W : Storage σ) (q : Queries) (l : Segment) (s : St σ) :
    (Segment × Option HTTPError) × St σ :=
  match W.newV4 s.db with
  | (.error err, db) =>
    ((Segment.zero, some (NewHTTPError StatusInternalServerError
        (Ts "globals.messages.errorUUID" ["error", err.text]))),
      s.record .newV4 db)
  | (.ok uu, db) =>
    let s1 := s.record .newV4 db
    let l := { l with UUID := uu }
    match W.createSegment s1.db l.UUID l.Name l.SegmentQuery l.Description with
    | (.error err, db) =>
      ((Segment.zero, some (NewHTTPError StatusInternalServerError
          (Ts "globals.messages.errorCreating"
            ["name", "{globals.terms.segment}", "error", q.pqErrMsg err]))),
        s1.record (.createSegment l.UUID l.Name l.SegmentQuery l.Description) db)
    | (.ok newID, db) =>
      GetSegment W q newID ""
        (s1.record (.createSegment l.UUID l.Name l.SegmentQuery l.Description) db)

/-- Go `Core.UpdateSegment`. -/
def UpdateSegment (W : Storage σ) (q : Queries) (id : Int) (l : Segment) (s : St σ) :
    (Segment × Option HTTPError) × St σ :=
  match W.updateSegment s.db id l.Name l.SegmentQuery l.Description with
  | (.error err, db) =>
    ((Segment.zero, some (NewHTTPError StatusInternalServerError
        (Ts "globals.messages.errorUpdating"
          ["name", "{globals.terms.segment}", "error", q.pqErrMsg err]))),
      s.record (.updateSegment id l.Name l.SegmentQuery l.Description) db)
  | (.ok n, db) =>
    let s1 := s.record (.updateSegment id l.Name l.SegmentQuery l.Description) db
    if n = 0 then
      ((Segment.zero, some (NewHTTPError StatusBadRequest
          (Ts "globals.messages.notFound" ["name", "{globals.terms.segment}"]))), s1)
    else GetSegment W q id "" s1

/-- Go `Core.DeleteSegments`. -/
def DeleteSegments (W : Storage σ) (q : Queries) (ids : List Int) (s : St σ) :
    Option HTTPError × St σ :=
  match W.deleteSegments s.db ids with
  | (.error err, db) =>
    (some (NewHTTPError StatusInternalServerError
        (Ts "globals.messages.errorDeleting"
          ["name", "{globals.terms.segment}", "error", q.pqErrMsg err])),
      s.record (.deleteSegments ids) db)
  | (.ok _, db) => (none, s.record (.deleteSegments ids) db)

/-- Go `Core.DeleteSegment`. -/
def DeleteSegment (W : Storage σ) (q : Queries) (id : Int) (s : St σ) :
    Option HTTPError × St σ :=
  DeleteSegments W q [id] s

/-- The `cond` computed at the top of `Core.CountSubscribersByQuery`. -/
def countCond (query : String) : String :=
  if query ≠ "" then Sprintf [.lit " WHERE ", .verbS] [query] else query

/-- The `stmt` computed by `Core.CountSubscribersByQuery`. -/
def countStmt (q : Queries) (query : String) : String :=
  Sprintf q.CountSubscribersByQuery [countCond query]

/-- Go `Core.CountSubscribersByQuery`.  The deferred `tx.Rollback()` runs on
both return paths that follow a successful `BeginTxx`. -/
def CountSubscribersByQuery (W : Storage σ) (q : Queries) (query : String) (s : St σ) :
    (Int × Option HTTPError) × St σ :=
  let stmt := countStmt q query
  match W.beginTxx s.db true with
  | (.error err, db) =>
    ((0, some (NewHTTPError StatusBadRequest
        (Ts "subscribers.errorPreparingQuery" ["error", q.pqErrMsg err]))),
      s.record (.beginTxx true false) db)
  | (.ok _, db) =>
    let s1 := s.record (.beginTxx true true) db
    match W.txGet s1.db stmt with
    | (.error err, db) =>
      let s2 := s1.record (.txGet stmt false) db
      ((0, some (NewHTTPError StatusInternalServerError
          (Ts "globals.messages.errorFetching"
            ["name", "{globals.terms.subscribers}", "error", q.pqErrMsg err]))),
        s2.record .txRollback (W.txRollback s2.db))
    | (.ok total, db) =>
      let s2 := s1.record (.txGet stmt true) db
      ((total, none), s2.record .txRollback (W.txRollback s2.db))

/-! ## `cmd/segments.go` -/

/-- Modelled from the spec: `strHasLen` is defined in package `main` outside
`cmd/segments.go`; the name bound reads "non-empty string, 1..N characters",
so the helper holds exactly when the character count lies in `min..max`. -/
def strHasLen (str : String) (min max : Int) : Bool :=
  decide (min ≤ (str.length : Int)) && decide ((str.length : Int) ≤ max)

/-- The part of `echo.Context` the two write handlers read: `ParamID` is the
value of `strconv.Atoi(c.Param("id"))` with its error dropped, `Bind` is the
outcome of `c.Bind(&l)` on a zero `models.Segment` (the bound value, or the
binder's error). -/
structure Context where
  ParamID : Int
  Bind : Except HTTPError Segment

/-- What a handler hands back to echo: an error, or the JSON envelope
`okResp{data}` written with a status code. -/
inductive Response where
  | err (e : HTTPError)
  | json (code : Nat) (data : Segment)
deriving DecidableEq, Repr

/-- The two `app.core` methods used by the write handlers, over a state `τ`. -/
structure CoreAPI (τ : Type) where
  CreateSegment : Segment → τ → (Segment × Option HTTPError) × τ
  UpdateSegment : Int → Segment → τ → (Segment × Option HTTPError) × τ

/-- The `app.core` of the running service: the functions of
`internal/core/segments.go` over a storage engine. -/
def coreOf {σ : Type} (W : Storage σ) (q : Queries) : CoreAPI (St σ) :=
  { CreateSegment := CreateSegment W q, UpdateSegment := UpdateSegment W q }

/-- Go `handleCreateSegment`; `stdInputMaxLen` is the package constant, defined
outside `cmd/segments.go`. -/
def handleCreateSegment {τ : Type} (core : CoreAPI τ) (stdInputMaxLen : Int) (c : Context)
    (t : τ) : Response × τ :=
  match c.Bind with
  | .error err => (.err err, t)
  | .ok l =>
    if !strHasLen l.Name 1 stdInputMaxLen then
      (.err (NewHTTPError StatusBadRequest (T "segments.invalidName")), t)
    else
      match core.CreateSegment l t with
      | ((_, some err), t1) => (.err err, t1)
      | ((out, none), t1) => (.json StatusOK out, t1)

/-- Go `handleUpdateSegment`. -/
def handleUpdateSegment {τ : Type} (core : CoreAPI τ) (stdInputMaxLen : Int) (c : Context)
    (t : τ) : Response × τ :=
  let id := c.ParamID
  if id < 1 then
    (.err (NewHTTPError StatusBadRequest (T "globals.messages.invalidID")), t)
  else
    match c.Bind with
    | .error err => (.err err, t)
    | .ok l =>
      if !strHasLen l.Name 1 stdInputMaxLen then
        (.err (NewHTTPError StatusBadRequest (T "segments.invalidName")), t)
      else
        match core.UpdateSegment id l t with
        | ((_, some err), t1) => (.err err, t1)
        | ((out, none), t1) => (.json StatusOK out, t1)

/-- One invocation of an `app.core` write method, with its arguments. -/
inductive CoreCall where
  | create (l : Segment)
  | update (id : Int) (l : Segment)
deriving DecidableEq, Repr

/-- A stand-in for `app.core` that does nothing but log each invocation; what
the handlers leave in the log is the list of core calls they made. -/
def logCore : CoreAPI (List CoreCall) :=
  { CreateSegment := fun l log => ((l, none), log ++ [.create l]),
    UpdateSegment := fun id l log => ((l, none), log ++ [.update id l]) }

/-! ## Concrete engines and sample data -/

/-- The state of a storage engine that answers every call from a fixed script:
the reply of any select, of opening a transaction, of the statement run inside
it, and the rows-affected reply of an update. -/
structure Script where
  rows : Except DBError (List Segment)
  begin : Except DBError Unit
  count : Except DBError Int
  affected : Except DBError Int

/-- The scripted engine: replies are read off the script, which never changes;
inserts and deletes succeed. -/
def scripted : Storage Script :=
  { getSegments := fun db _ => (db.rows, db),
    select := fun db _ _ _ _ _ _ => (db.rows, db),
    newV4 := fun db => (.ok "6f9619ff-8b86-4011-b42d-00c04fc964ff", db),
    createSegment := fun db _ _ _ _ => (.ok 1, db),
    updateSegment := fun db _ _ _ _ => (db.affected, db),
    deleteSegments := fun db _ => (.ok (), db),
    beginTxx := fun db _ => (db.begin, db),
    txGet := fun db _ => (db.count, db),
    txRollback := fun db => db }

/-- Modelled from the spec: the relational engine and the SQL texts are not
part of the two files.  A table of segments in which a lookup identifies a row
by `id` (primary) or else by `uuid` (secondary); id 0 with an empty or nil uuid
selects every row, as the listing call of `QuerySegments` relies on.  Every
returned row carries the size of the matching set as `Total`, and `limit` rows
are returned after skipping `offset`. -/
def tableSelect (rows : List Segment) (id : Int) (uu : Option String) (offset limit : Int) :
    List Segment :=
  let hit := rows.filter fun r =>
    if 0 < id then decide (r.ID = id)
    else match uu with
      | some u => if u ≠ "" then decide (r.UUID = u) else true
      | none => true
  ((hit.map fun r => { r with Total := hit.length }).drop offset.toNat).take limit.toNat

/-- Modelled from the spec: the in-memory table engine.  Ids are assigned by
the table on creation (one more than the largest id present), an update
replaces name, query and description of the rows with the given id and
reports their number, a delete removes the rows whose id is in the list. -/
def table : Storage (List Segment) :=
  { getSegments := fun rows _ => (.ok rows, rows),
    select := fun rows _ id uu _ offset limit => (.ok (tableSelect rows id uu offset limit), rows),
    newV4 := fun rows => (.ok ("uuid-" ++ toString rows.length), rows),
    createSegment := fun rows uuid name query desc =>
      let newID := (rows.map fun r => r.ID).foldl max 0 + 1
      (.ok newID, rows ++ [{ Segment.zero with
        ID := newID, UUID := uuid, Name := name, SegmentQuery := query, Description := desc }]),
    updateSegment := fun rows id name query desc =>
      (.ok ((rows.filter fun r => decide (r.ID = id)).length : Int),
        rows.map fun r =>
          if r.ID = id then { r with Name := name, SegmentQuery := query, Description := desc }
          else r),
    deleteSegments := fun rows ids => (.ok (), rows.filter fun r => decide (r.ID ∉ ids)),
    beginTxx := fun rows _ => (.ok (), rows),
    txGet := fun rows _ => (.ok 0, rows),
    txRollback := fun rows => rows }

/-- Query texts and helpers used with the concrete engines: the listing
statement text is immaterial to them, the count template is
`SELECT COUNT(*) FROM subscribers%s`. -/
def sampleQueries : Queries :=
  { QuerySegments := "query-segments",
    CountSubscribersByQuery := [.lit "SELECT COUNT(*) FROM subscribers", .verbS],
    makeSearchQuery := fun searchStr _ _ query _ => (searchStr, query),
    pqErrMsg := fun e => e.text }

/-- A sample stored segment. -/
def sampleSegment : Segment :=
  { ID := 7, UUID := "0b7e6a1c-5f0d-4d83-9d3e-2f1c8a6b4e55", Name := "High value",
    SegmentQuery := "subscribers.attribs->>\x27ltv\x27 > \x271000\x27", Description := "top spenders",
    CreatedAt := "2024-01-01", UpdatedAt := "2024-01-01", Total := 1 }

/-! ## Vocabulary of the statements -/

/-- A format piece that is not the verb `%s`. -/
def FmtPiece.isText : FmtPiece → Bool
  | .verbS => false
  | _ => true

/-- The not-found error built by `GetSegment` and `UpdateSegment`. -/
def notFoundError : HTTPError :=
  NewHTTPError StatusBadRequest (Ts "globals.messages.notFound" ["name", "{globals.terms.segment}"])

/-- A scripted engine state: selects return no row, the transaction opens or
not as given, the statement inside it succeeds or not as given. -/
def countScript (begin : Except DBError Unit) (count : Except DBError Int) : St Script :=
  { db := { rows := .ok [], begin := begin, count := count, affected := .ok 0 }, trace := [] }

/-- The `interface{}` operand `uu` that `GetSegment` derives from `uuid`. -/
def lookupUU (uuid : String) : Option String :=
  if uuid ≠ "" then some uuid else none

/-- The pair `(queryStr, stmt)` that `GetSegment` obtains from `makeSearchQuery`. -/
def lookupQuery (q : Queries) : String × String :=
  q.makeSearchQuery "" "" "" q.QuerySegments []

/-- The storage call issued by `GetSegment id uuid`. -/
def lookupAction (q : Queries) (id : Int) (uuid : String) : Action :=
  .select (lookupQuery q).2 id (lookupUU uuid) (lookupQuery q).1 0 1

/-- The engine's reply to the storage call issued by `GetSegment id uuid`. -/
def lookupReply (W : Storage σ) (q : Queries) (id : Int) (uuid : String) (db : σ) :
    Except DBError (List Segment) × σ :=
  W.select db (lookupQuery q).2 id (lookupUU uuid) (lookupQuery q).1 0 1

/-- The server-fault error built by `GetSegment` when the lookup fails. -/
def fetchError (q : Queries) (err : DBError) : HTTPError :=
  NewHTTPError StatusInternalServerError
    (Ts "globals.messages.errorFetching"
      ["name", "{globals.terms.segments}", "error", q.pqErrMsg err])

/-- The value and error `GetSegment` returns for a given reply of the engine. -/
def lookupResult (q : Queries) : Except DBError (List Segment) → Segment × Option HTTPError
  | .error err => (Segment.zero, some (fetchError q err))
  | .ok [] => (Segment.zero, some notFoundError)
  | .ok (out :: _) => (out, none)

/-- An engine state of the scripted engine in which every select returns the
given rows. -/
def rowsScript (rows : List Segment) : St Script :=
  { db := { rows := .ok rows, begin := .ok (), count := .ok 0, affected := .ok 1 }, trace := [] }

/-- On the engine `W`, an id that was in the list of a successful delete
matches no row afterwards: the lookup `GetSegment id ""` issues is answered
with zero rows. -/
def DeletedMatchesNoRow (W : Storage σ) (q : Queries) (id : Int) : Prop :=
  ∀ (db : σ) (ids : List Int), id ∈ ids → (W.deleteSegments db ids).1 = .ok () →
    (lookupReply W q id "" (W.deleteSegments db ids).2).1 = .ok []

/-- The storage call issued by `UpdateSegment id l`. -/
def updateAction (id : Int) (l : Segment) : Action :=
  .updateSegment id l.Name l.SegmentQuery l.Description

/-- The server-fault error built by `UpdateSegment` when the statement fails. -/
def updateError (q : Queries) (err : DBError) : HTTPError :=
  NewHTTPError StatusInternalServerError
    (Ts "globals.messages.errorUpdating"
      ["name", "{globals.terms.segment}", "error", q.pqErrMsg err])

/-- The storage call issued by `CreateSegment l` once the generator returned `uu`. -/
def createAction (uu : String) (l : Segment) : Action :=
  .createSegment uu l.Name l.SegmentQuery l.Description

/-- The server-fault error built by `CreateSegment` when the generator fails. -/
def uuidError (err : DBError) : HTTPError :=
  NewHTTPError StatusInternalServerError (Ts "globals.messages.errorUUID" ["error", err.text])

/-- The server-fault error built by `CreateSegment` when the insert fails. -/
def createError (q : Queries) (err : DBError) : HTTPError :=
  NewHTTPError StatusInternalServerError
    (Ts "globals.messages.errorCreating"
      ["name", "{globals.terms.segment}", "error", q.pqErrMsg err])

/-- The row the table engine appends for an insert handed `uuid` and the three
fields of `l`, under the id `newID`. -/
def insertedRow (newID : Int) (uuid : String) (l : Segment) : Segment :=
  { Segment.zero with
    ID := newID, UUID := uuid, Name := l.Name, SegmentQuery := l.SegmentQuery,
    Description := l.Description }

/-- The pair `(queryStr, stmt)` that `QuerySegments` obtains from `makeSearchQuery`. -/
def listingQuery (q : Queries) (searchStr orderBy order : String) : String × String :=
  q.makeSearchQuery searchStr orderBy order q.QuerySegments ["name", "created_at", "updated_at"]

/-- The engine's reply to the storage call issued by `QuerySegments`. -/
def listingReply (W : Storage σ) (q : Queries) (searchStr orderBy order : String)
    (offset limit : Int) (db : σ) : Except DBError (List Segment) × σ :=
  W.select db (listingQuery q searchStr orderBy order).2 0 (some "")
    (listingQuery q searchStr orderBy order).1 offset limit

/-- On the engine `W`, whose stored rows are read off by `rows`, the delete
statement succeeds and removes exactly the rows whose id is in the list. -/
def DeleteRemoves (W : Storage σ) (rows : σ → List Segment) : Prop :=
  ∀ (db : σ) (ids : List Int), (W.deleteSegments db ids).1 = .ok () ∧
    rows (W.deleteSegments db ids).2 = (rows db).filter fun r => decide (r.ID ∉ ids)

/-- The error returned by both write handlers for a name outside the bound. -/
def invalidNameError : HTTPError :=
  NewHTTPError StatusBadRequest (T "segments.invalidName")

/-- A request context with the given id parameter whose body binds to a
segment of the given name. -/
def namedRequest (id : Int) (name : String) : Context :=
  { ParamID := id, Bind := .ok { Segment.zero with Name := name } }

/-! ## Auxiliary facts -/

theorem Sprintf_text_append (f g : Format) (hf : ∀ p ∈ f, p.isText = true) (as : List String) :
    Sprintf (f ++ g) as = Sprintf f [] ++ Sprintf g as := by
  induction f with
  | nil => simp [Sprintf]
  | cons p f ih =>
    have ih1 := ih (fun p hp => hf p (List.mem_cons_of_mem _ hp))
    cases p with
    | lit s => simp [Sprintf, ih1, String.append_assoc]
    | percent => simp [Sprintf, ih1, String.append_assoc]
    | verbS => exact absurd (hf .verbS (List.mem_cons_self _ _)) (by simp [FmtPiece.isText])

theorem Sprintf_one_verb (pre post : Format) (hpre : ∀ p ∈ pre, p.isText = true) (a : String) :
    Sprintf (pre ++ .verbS :: post) [a] = Sprintf pre [] ++ (a ++ Sprintf post []) := by
  rw [Sprintf_text_append pre _ hpre]
  simp [Sprintf]

theorem countCond_nonempty (e : String) (h : e ≠ "") : countCond e = " WHERE " ++ e := by
  simp [countCond, h, Sprintf]

theorem countCond_empty : countCond "" = "" := by
  simp [countCond]

/-- C1 (the code at the failing inputs): with the filter `status = ` the engine
opens the read-only transaction and rejects the count statement with a syntax
error, and `CountSubscribersByQuery` answers with status 500; when the engine
cannot open the transaction (connection refused) it answers with status 400.
The two statuses are the reverse of the classification the claim states. -/
theorem C1_count_error_statuses_at_failing_input :
    (CountSubscribersByQuery scripted sampleQueries "status = "
        (countScript (.ok ()) (.error ⟨"syntax error at end of input"⟩))).1
      = (0, some (NewHTTPError StatusInternalServerError
          (Ts "globals.messages.errorFetching"
            ["name", "{globals.terms.subscribers}", "error", "syntax error at end of input"]))) ∧
    (CountSubscribersByQuery scripted sampleQueries "status = "
        (countScript (.ok ()) (.error ⟨"syntax error at end of input"⟩))).2.trace
      = [.beginTxx true true,
         .txGet "SELECT COUNT(*) FROM subscribers WHERE status = " false, .txRollback] ∧
    (CountSubscribersByQuery scripted sampleQueries "status = \x27enabled\x27"
        (countScript (.error ⟨"connection refused"⟩) (.ok 3))).1
      = (0, some (NewHTTPError StatusBadRequest
          (Ts "subscribers.errorPreparingQuery" ["error", "connection refused"]))) ∧
    StatusInternalServerError = 500 ∧ StatusBadRequest = 400 := by
  refine ⟨?_, ?_, ?_, rfl, rfl⟩ <;> decide

/-- C2: whatever the filter expression and the engine, the storage calls made by
`CountSubscribersByQuery` are either one failed `BeginTxx` with `ReadOnly: true`
and nothing else, or a successful `BeginTxx` with `ReadOnly: true`, one
execution of the count statement and one `Rollback`, in this order; the
rollback is there whether the statement succeeded or failed, and the engine
state returned is the one left by the rollback. -/
theorem C2_count_storage_calls (W : Storage σ) (q : Queries) (e : String) (s : St σ) :
    ((∃ err, (W.beginTxx s.db true).1 = .error err) ∧
      (CountSubscribersByQuery W q e s).2 =
        { db := (W.beginTxx s.db true).2, trace := s.trace ++ [.beginTxx true false] }) ∨
    ((W.beginTxx s.db true).1 = .ok () ∧
      ∃ succeeded : Bool,
        (succeeded = true ↔
          ∃ n, (W.txGet (W.beginTxx s.db true).2 (countStmt q e)).1 = .ok n) ∧
        (CountSubscribersByQuery W q e s).2 =
          { db := W.txRollback (W.txGet (W.beginTxx s.db true).2 (countStmt q e)).2,
            trace := s.trace ++
              [.beginTxx true true, .txGet (countStmt q e) succeeded, .txRollback] }) := by
  unfold CountSubscribersByQuery
  rcases hb : W.beginTxx s.db true with ⟨rb, db1⟩
  cases rb with
  | error err =>
    left
    exact ⟨⟨err, rfl⟩, by simp [St.record]⟩
  | ok u =>
    right
    refine ⟨rfl, ?_⟩
    simp only [St.record]
    rcases hg : W.txGet db1 (countStmt q e) with ⟨rg, db2⟩
    cases rg with
    | error err => exact ⟨false, by simp, by simp⟩
    | ok n => exact ⟨true, by simp, by simp⟩

/-- C3: the clause put into the count template is `" WHERE "` followed by the
expression, unchanged, when the expression is non-empty, and the empty string
when it is empty; the statement run inside the transaction is the template
formatted with that clause, so for a template whose only operand verb is one
`%s` it is the template text with the clause in the place of the verb, and for
the empty expression the template text with nothing in that place. -/
theorem C3_count_clause (W : Storage σ) (q : Queries) (e : String) (s : St σ) :
    (e ≠ "" → countCond e = " WHERE " ++ e) ∧
    countCond "" = "" ∧
    ((W.beginTxx s.db true).1 = .ok () →
      ∃ succeeded, (CountSubscribersByQuery W q e s).2.trace =
        s.trace ++ [.beginTxx true true,
          .txGet (Sprintf q.CountSubscribersByQuery [countCond e]) succeeded, .txRollback]) ∧
    (∀ pre post : Format, q.CountSubscribersByQuery = pre ++ .verbS :: post →
      (∀ p ∈ pre, p.isText = true) →
        countStmt q e = Sprintf pre [] ++ (countCond e ++ Sprintf post []) ∧
        countStmt q "" = Sprintf pre [] ++ Sprintf post []) := by
  refine ⟨countCond_nonempty e, countCond_empty, ?_, ?_⟩
  · intro hb
    unfold CountSubscribersByQuery
    rcases hb1 : W.beginTxx s.db true with ⟨rb, db1⟩
    rw [hb1] at hb
    simp only at hb
    subst hb
    simp only [St.record]
    rcases hg : W.txGet db1 (countStmt q e) with ⟨rg, db2⟩
    cases rg with
    | error err => exact ⟨false, by simp [countStmt]⟩
    | ok n => exact ⟨true, by simp [countStmt]⟩
  · intro pre post hq hpre
    unfold countStmt
    rw [hq, Sprintf_one_verb pre post hpre, Sprintf_one_verb pre post hpre, countCond_empty]
    simp

/-- C3 at a concrete input: with the template `SELECT COUNT(*) FROM subscribers%s`
the statements for a non-empty and for the empty expression. -/
theorem C3_count_clause_witness :
    countStmt sampleQueries "status = 1" = "SELECT COUNT(*) FROM subscribers WHERE status = 1" ∧
    countStmt sampleQueries "" = "SELECT COUNT(*) FROM subscribers" ∧
    (CountSubscribersByQuery scripted sampleQueries "" (countScript (.ok ()) (.ok 42))).1
      = (42, none) := by
  have h := (C3_count_clause scripted sampleQueries "status = 1"
    (countScript (.ok ()) (.ok 42))).2.2.2 [.lit "SELECT COUNT(*) FROM subscribers"] [] rfl
    (by decide)
  refine ⟨?_, ?_, by decide⟩
  · rw [h.1]; decide
  · rw [h.2]; decide

theorem GetSegment_eq (W : Storage σ) (q : Queries) (id : Int) (uuid : String) (s : St σ) :
    GetSegment W q id uuid s =
      (lookupResult q (lookupReply W q id uuid s.db).1,
        { db := (lookupReply W q id uuid s.db).2,
          trace := s.trace ++ [lookupAction q id uuid] }) := by
  unfold GetSegment lookupReply lookupAction lookupQuery lookupUU
  rcases hq : q.makeSearchQuery "" "" "" q.QuerySegments [] with ⟨queryStr, stmt⟩
  simp only
  rcases hr : W.select s.db stmt id (if uuid ≠ "" then some uuid else none) queryStr 0 1
    with ⟨r, db⟩
  cases r with
  | error err => simp [lookupResult, fetchError, St.record]
  | ok rows =>
    cases rows with
    | nil => simp [lookupResult, notFoundError, St.record]
    | cons out rest => simp [lookupResult, St.record]

theorem lookupResult_notFound_iff (q : Queries) (rows : List Segment) :
    lookupResult q (.ok rows) = (Segment.zero, some notFoundError) ↔ rows = [] := by
  cases rows with
  | nil => simp [lookupResult]
  | cons out rest => simp [lookupResult]

/-- C4 (counterexample): with both identifiers empty and a storage whose query
returns one row for those parameters, `GetSegment` returns that row and no
error; the call reached the storage with id 0 and a nil uuid.  The same on the
table engine holding one segment. -/
theorem C4_get_without_identifiers_returns_row :
    (GetSegment scripted sampleQueries 0 "" (rowsScript [sampleSegment])).1
      = (sampleSegment, none) ∧
    (GetSegment scripted sampleQueries 0 "" (rowsScript [sampleSegment])).2.trace
      = [.select "query-segments" 0 none "" 0 1] ∧
    (GetSegment table sampleQueries 0 "" { db := [sampleSegment], trace := [] }).1
      = (sampleSegment, none) := by
  refine ⟨?_, ?_, ?_⟩ <;> decide

/-- C4 (amended): `GetSegment` with both identifiers empty has no check of its
own; it issues the lookup with id 0 and a nil uuid and answers from the reply
alone: a status-400 error exactly when the query succeeds with zero rows (the
not-found error), the first row and no error when the query returns at least
one row, and a status-500 error when the query fails. -/
theorem C4_get_without_identifiers (W : Storage σ) (q : Queries) (s : St σ) :
    (GetSegment W q 0 "" s).2.trace =
      s.trace ++ [.select (lookupQuery q).2 0 none (lookupQuery q).1 0 1] ∧
    ((∃ e, (GetSegment W q 0 "" s).1.2 = some e ∧ e.Code = StatusBadRequest) ↔
      (lookupReply W q 0 "" s.db).1 = .ok []) ∧
    ((lookupReply W q 0 "" s.db).1 = .ok [] →
      (GetSegment W q 0 "" s).1 = (Segment.zero, some notFoundError)) ∧
    (∀ out rest, (lookupReply W q 0 "" s.db).1 = .ok (out :: rest) →
      (GetSegment W q 0 "" s).1 = (out, none)) ∧
    (∀ err, (lookupReply W q 0 "" s.db).1 = .error err →
      (GetSegment W q 0 "" s).1 = (Segment.zero, some (fetchError q err)) ∧
      (fetchError q err).Code = StatusInternalServerError) := by
  rw [GetSegment_eq]
  refine ⟨by simp [lookupAction, lookupUU], ?_, ?_, ?_, ?_⟩
  · rcases hr : (lookupReply W q 0 "" s.db).1 with err | rows
    · simp [lookupResult, fetchError, NewHTTPError, StatusBadRequest,
        StatusInternalServerError]
    · cases rows with
      | nil => simp [lookupResult, notFoundError, NewHTTPError]
      | cons out rest => simp [lookupResult]
  · intro h; simp [h, lookupResult]
  · intro out rest h; simp [h, lookupResult]
  · intro err h; simp [h, lookupResult, fetchError, NewHTTPError]

/-- C4 (amended) at concrete inputs: an empty storage gives the status-400
not-found error, a failing storage the status-500 error. -/
theorem C4_get_without_identifiers_witness :
    (GetSegment scripted sampleQueries 0 "" (rowsScript [])).1
      = (Segment.zero, some notFoundError) ∧
    (GetSegment scripted sampleQueries 0 ""
        { db := { rows := .error ⟨"connection reset"⟩, begin := .ok (), count := .ok 0,
                  affected := .ok 1 }, trace := [] }).1
      = (Segment.zero, some (fetchError sampleQueries ⟨"connection reset"⟩)) :=
  ⟨(C4_get_without_identifiers scripted sampleQueries (rowsScript [])).2.2.1 rfl,
   ((C4_get_without_identifiers scripted sampleQueries
      { db := { rows := .error ⟨"connection reset"⟩, begin := .ok (), count := .ok 0,
                affected := .ok 1 }, trace := [] }).2.2.2.2 ⟨"connection reset"⟩ rfl).1⟩

theorem DeleteSegments_eq (W : Storage σ) (q : Queries) (ids : List Int) (s : St σ) :
    DeleteSegments W q ids s =
      (match (W.deleteSegments s.db ids).1 with
        | .error err => some (NewHTTPError StatusInternalServerError
            (Ts "globals.messages.errorDeleting"
              ["name", "{globals.terms.segment}", "error", q.pqErrMsg err]))
        | .ok _ => none,
        { db := (W.deleteSegments s.db ids).2, trace := s.trace ++ [.deleteSegments ids] }) := by
  unfold DeleteSegments
  rcases hr : W.deleteSegments s.db ids with ⟨r, db⟩
  cases r <;> simp [St.record]

theorem table_deleted_matches_no_row (q : Queries) (id : Int) (hid : 0 < id) :
    DeletedMatchesNoRow table q id := by
  intro rows ids hmem _
  have hfil : ∀ l : List Segment,
      (l.filter fun r => decide (r.ID ∉ ids)).filter (fun r => decide (r.ID = id)) = [] := by
    intro l
    rw [List.filter_eq_nil_iff]
    intro r hr
    have h1 := (List.mem_filter.mp hr).2
    simp only [decide_eq_true_eq] at h1 ⊢
    intro h2
    exact h1 (h2 ▸ hmem)
  simp only [lookupReply, table, tableSelect, hid, if_true, hfil]
  rfl

/-- C5: when the lookup succeeds, `GetSegment` returns the not-found error next
to an empty `Segment` exactly when the lookup returned zero rows, and the first
row with no error when it returned at least one; hence on an engine where a
deleted id matches no row, a successful `DeleteSegments [id]` followed by
`GetSegment id ""` returns the not-found error. -/
theorem C5_get_not_found_iff_no_row (W : Storage σ) (q : Queries) (id : Int) (uuid : String)
    (s : St σ) :
    (∀ rows, (lookupReply W q id uuid s.db).1 = .ok rows →
      ((GetSegment W q id uuid s).1 = (Segment.zero, some notFoundError) ↔ rows = []) ∧
      (∀ out rest, rows = out :: rest → (GetSegment W q id uuid s).1 = (out, none))) ∧
    (DeletedMatchesNoRow W q id → (DeleteSegments W q [id] s).1 = none →
      (GetSegment W q id "" (DeleteSegments W q [id] s).2).1
        = (Segment.zero, some notFoundError)) := by
  constructor
  · intro rows hrows
    rw [GetSegment_eq]
    simp only [hrows]
    refine ⟨lookupResult_notFound_iff q rows, ?_⟩
    intro out rest h
    simp [h, lookupResult]
  · intro hdel hok
    rw [GetSegment_eq, DeleteSegments_eq] at *
    simp only at hok ⊢
    have hd : (W.deleteSegments s.db [id]).1 = .ok () := by
      rcases hr : (W.deleteSegments s.db [id]).1 with err | u
      · rw [hr] at hok; simp at hok
      · rfl
    rw [hdel s.db [id] (List.mem_singleton_self id) hd]
    simp [lookupResult]

/-- C5 at a concrete input: the table holding segment 7; looking it up returns
it, and after `DeleteSegments [7]` the lookup returns the not-found error. -/
theorem C5_get_not_found_iff_no_row_witness :
    (GetSegment table sampleQueries 7 "" { db := [sampleSegment], trace := [] }).1
      = (sampleSegment, none) ∧
    (GetSegment table sampleQueries 7 ""
        (DeleteSegments table sampleQueries [7] { db := [sampleSegment], trace := [] }).2).1
      = (Segment.zero, some notFoundError) :=
  ⟨((C5_get_not_found_iff_no_row table sampleQueries 7 ""
      { db := [sampleSegment], trace := [] }).1 [sampleSegment] rfl).2
      sampleSegment [] rfl,
   (C5_get_not_found_iff_no_row table sampleQueries 7 ""
      { db := [sampleSegment], trace := [] }).2
      (table_deleted_matches_no_row sampleQueries 7 (by decide)) (by decide)⟩

theorem UpdateSegment_eq (W : Storage σ) (q : Queries) (id : Int) (l : Segment) (s : St σ) :
    UpdateSegment W q id l s =
      match (W.updateSegment s.db id l.Name l.SegmentQuery l.Description).1 with
      | .error err =>
        ((Segment.zero, some (updateError q err)),
          { db := (W.updateSegment s.db id l.Name l.SegmentQuery l.Description).2,
            trace := s.trace ++ [updateAction id l] })
      | .ok n =>
        if n = 0 then
          ((Segment.zero, some notFoundError),
            { db := (W.updateSegment s.db id l.Name l.SegmentQuery l.Description).2,
              trace := s.trace ++ [updateAction id l] })
        else
          GetSegment W q id ""
            { db := (W.updateSegment s.db id l.Name l.SegmentQuery l.Description).2,
              trace := s.trace ++ [updateAction id l] } := by
  unfold UpdateSegment
  rcases hr : W.updateSegment s.db id l.Name l.SegmentQuery l.Description with ⟨r, db⟩
  cases r with
  | error err => simp [St.record, updateError, updateAction]
  | ok n => simp [St.record, notFoundError, updateAction]

/-- C6: when the update statement succeeds with zero rows affected,
`UpdateSegment` returns the not-found error after the single update call (no
lookup follows); with at least one row affected its result is the result of
`GetSegment id ""` run on the state the update left; when the statement fails
it returns a status-500 error after the single update call. -/
theorem C6_update_outcomes (W : Storage σ) (q : Queries) (id : Int) (l : Segment) (s : St σ) :
    ((W.updateSegment s.db id l.Name l.SegmentQuery l.Description).1 = .ok 0 →
      UpdateSegment W q id l s =
        ((Segment.zero, some notFoundError),
          { db := (W.updateSegment s.db id l.Name l.SegmentQuery l.Description).2,
            trace := s.trace ++ [.updateSegment id l.Name l.SegmentQuery l.Description] })) ∧
    (∀ n : Int, 1 ≤ n →
      (W.updateSegment s.db id l.Name l.SegmentQuery l.Description).1 = .ok n →
      UpdateSegment W q id l s =
        GetSegment W q id ""
          { db := (W.updateSegment s.db id l.Name l.SegmentQuery l.Description).2,
            trace := s.trace ++ [.updateSegment id l.Name l.SegmentQuery l.Description] }) ∧
    (∀ err, (W.updateSegment s.db id l.Name l.SegmentQuery l.Description).1 = .error err →
      UpdateSegment W q id l s =
        ((Segment.zero, some (updateError q err)),
          { db := (W.updateSegment s.db id l.Name l.SegmentQuery l.Description).2,
            trace := s.trace ++ [.updateSegment id l.Name l.SegmentQuery l.Description] }) ∧
      (updateError q err).Code = StatusInternalServerError) := by
  rw [UpdateSegment_eq]
  refine ⟨?_, ?_, ?_⟩
  · intro h; simp [h, updateAction]
  · intro n hn h
    have hn0 : n ≠ 0 := by omega
    simp [h, hn0, updateAction]
  · intro err h; simp [h, updateAction, updateError, NewHTTPError]

/-- C6 at concrete inputs on the table engine: updating the stored segment 7
returns the re-fetched row with the new name, updating the absent id 8 returns
the not-found error after one storage call. -/
theorem C6_update_outcomes_witness :
    (UpdateSegment table sampleQueries 7 { sampleSegment with Name := "VIP" }
        { db := [sampleSegment], trace := [] }).1
      = ({ sampleSegment with Name := "VIP" }, none) ∧
    UpdateSegment table sampleQueries 8 { sampleSegment with Name := "VIP" }
        { db := [sampleSegment], trace := [] }
      = ((Segment.zero, some notFoundError),
          { db := [sampleSegment],
            trace := [.updateSegment 8 "VIP" sampleSegment.SegmentQuery "top spenders"] }) := by
  constructor
  · rw [(C6_update_outcomes table sampleQueries 7 { sampleSegment with Name := "VIP" }
      { db := [sampleSegment], trace := [] }).2.1 1 (le_refl 1) rfl]
    decide
  · exact (C6_update_outcomes table sampleQueries 8 { sampleSegment with Name := "VIP" }
      { db := [sampleSegment], trace := [] }).1 rfl

/-- C7: when the select succeeds, `QuerySegments` returns the rows of the reply
with no error, and the count it returns is 0 for an empty row list and the
`Total` of the first row otherwise; so when all rows carry one total, the count
is the total carried by each returned row, whatever the number of rows. -/
theorem C7_query_total (W : Storage σ) (q : Queries) (searchStr orderBy order : String)
    (offset limit : Int) (s : St σ) (out : List Segment)
    (hsel : (listingReply W q searchStr orderBy order offset limit s.db).1 = .ok out) :
    (QuerySegments W q searchStr orderBy order offset limit s).1.1 = out ∧
    (QuerySegments W q searchStr orderBy order offset limit s).1.2.2 = none ∧
    (out = [] → (QuerySegments W q searchStr orderBy order offset limit s).1.2.1 = 0) ∧
    (∀ first rest, out = first :: rest →
      (QuerySegments W q searchStr orderBy order offset limit s).1.2.1 = first.Total) ∧
    (∀ t : Int, (∀ r ∈ out, r.Total = t) →
      ∀ r ∈ out, (QuerySegments W q searchStr orderBy order offset limit s).1.2.1 = r.Total) := by
  unfold listingReply listingQuery at hsel
  unfold QuerySegments
  rcases hq : q.makeSearchQuery searchStr orderBy order q.QuerySegments
    ["name", "created_at", "updated_at"] with ⟨queryStr, stmt⟩
  rw [hq] at hsel
  simp only at hsel ⊢
  rcases hr : W.select s.db stmt 0 (some "") queryStr offset limit with ⟨r, db⟩
  rw [hr] at hsel
  simp only at hsel
  subst hsel
  cases out with
  | nil => simp
  | cons first rest =>
    refine ⟨rfl, rfl, by simp, ?_, ?_⟩
    · intro f r h
      simp only [List.cons.injEq] at h
      rw [← h.1]
    · intro t ht r hr
      simp only
      rw [ht r hr, ht first (List.mem_cons_self _ _)]

/-- C7 at a concrete input: a page of two rows out of five matching ones. -/
theorem C7_query_total_witness :
    (QuerySegments scripted sampleQueries "" "" "" 0 2
        (rowsScript [{ sampleSegment with Total := 5 },
                     { sampleSegment with ID := 8, Total := 5 }])).1.2.1 = 5 :=
  (C7_query_total scripted sampleQueries "" "" "" 0 2
    (rowsScript [{ sampleSegment with Total := 5 }, { sampleSegment with ID := 8, Total := 5 }])
    [{ sampleSegment with Total := 5 }, { sampleSegment with ID := 8, Total := 5 }] rfl).2.2.2.1
    { sampleSegment with Total := 5 } [{ sampleSegment with ID := 8, Total := 5 }] rfl

/-- C8: `DeleteSegments` returns an error exactly when the delete statement
fails, for every id list (the empty one included), after one storage call
carrying the list; on an engine whose delete removes exactly the rows whose id
is in the list, `DeleteSegments [id]` run twice in succession returns no error
both times and leaves the rows the first run left, none of them with that id;
and `DeleteSegment id` is `DeleteSegments [id]`. -/
theorem C8_delete_idempotent (W : Storage σ) (q : Queries) (rows : σ → List Segment)
    (ids : List Int) (id : Int) (s : St σ) :
    ((DeleteSegments W q ids s).1 ≠ none ↔ ∃ err, (W.deleteSegments s.db ids).1 = .error err) ∧
    (DeleteSegments W q ids s).2 =
      { db := (W.deleteSegments s.db ids).2, trace := s.trace ++ [.deleteSegments ids] } ∧
    (DeleteRemoves W rows →
      (DeleteSegments W q [id] s).1 = none ∧
      (DeleteSegments W q [id] (DeleteSegments W q [id] s).2).1 = none ∧
      rows (DeleteSegments W q [id] (DeleteSegments W q [id] s).2).2.db
        = rows (DeleteSegments W q [id] s).2.db ∧
      (∀ r ∈ rows (DeleteSegments W q [id] s).2.db, r.ID ≠ id) ∧
      (∀ r ∈ rows (DeleteSegments W q [id] (DeleteSegments W q [id] s).2).2.db, r.ID ≠ id)) ∧
    DeleteSegment W q id s = DeleteSegments W q [id] s := by
  refine ⟨?_, ?_, ?_, rfl⟩
  · rw [DeleteSegments_eq]
    rcases hr : (W.deleteSegments s.db ids).1 with err | u <;> simp
  · rw [DeleteSegments_eq]
  · intro hdel
    simp only [DeleteSegments_eq]
    have h1 := hdel s.db [id]
    have h2 := hdel (W.deleteSegments s.db [id]).2 [id]
    have hno : ∀ r ∈ rows (W.deleteSegments s.db [id]).2, r.ID ≠ id := by
      intro r hr
      rw [h1.2] at hr
      simpa using (List.mem_filter.mp hr).2
    have hsame : rows (W.deleteSegments (W.deleteSegments s.db [id]).2 [id]).2
        = rows (W.deleteSegments s.db [id]).2 := by
      rw [h2.2, List.filter_eq_self]
      intro r hr
      simpa using hno r hr
    refine ⟨by rw [h1.1], by rw [h2.1], hsame, hno, ?_⟩
    rw [hsame]
    exact hno

/-- C8 at a concrete input: the table holding segments 7 and 8; deleting 7
twice returns no error twice and leaves segment 8 alone, as one deletion does. -/
theorem C8_delete_idempotent_witness :
    (DeleteSegments table sampleQueries [7]
        { db := [sampleSegment, { sampleSegment with ID := 8 }], trace := [] }).1 = none ∧
    (DeleteSegments table sampleQueries [7]
        (DeleteSegments table sampleQueries [7]
          { db := [sampleSegment, { sampleSegment with ID := 8 }], trace := [] }).2).1 = none ∧
    (DeleteSegments table sampleQueries [7]
        (DeleteSegments table sampleQueries [7]
          { db := [sampleSegment, { sampleSegment with ID := 8 }], trace := [] }).2).2.db
      = [{ sampleSegment with ID := 8 }] := by
  have h := (C8_delete_idempotent table sampleQueries id [] 7
    { db := [sampleSegment, { sampleSegment with ID := 8 }], trace := [] }).2.2.1
    (fun _ _ => ⟨rfl, rfl⟩)
  exact ⟨h.1, h.2.1, h.2.2.1.trans (by decide)⟩

theorem CreateSegment_eq (W : Storage σ) (q : Queries) (l : Segment) (s : St σ) :
    CreateSegment W q l s =
      match (W.newV4 s.db).1 with
      | .error err =>
        ((Segment.zero, some (uuidError err)),
          { db := (W.newV4 s.db).2, trace := s.trace ++ [.newV4] })
      | .ok uu =>
        match (W.createSegment (W.newV4 s.db).2 uu l.Name l.SegmentQuery l.Description).1 with
        | .error err =>
          ((Segment.zero, some (createError q err)),
            { db := (W.createSegment (W.newV4 s.db).2 uu l.Name l.SegmentQuery l.Description).2,
              trace := s.trace ++ [.newV4, createAction uu l] })
        | .ok newID =>
          GetSegment W q newID ""
            { db := (W.createSegment (W.newV4 s.db).2 uu l.Name l.SegmentQuery l.Description).2,
              trace := s.trace ++ [.newV4, createAction uu l] } := by
  unfold CreateSegment
  rcases hv : W.newV4 s.db with ⟨r, db1⟩
  cases r with
  | error err => simp [St.record, uuidError]
  | ok uu =>
    simp only [St.record]
    rcases hc : W.createSegment db1 uu l.Name l.SegmentQuery l.Description with ⟨rc, db2⟩
    cases rc with
    | error err => simp [createError, createAction]
    | ok newID => simp [createAction]

/-- C9: `UpdateSegment` hands the engine only the id, the name, the query and the
description, so two inputs that agree on these three fields (and differ in uuid
or anywhere else) lead to the same storage call, the same result and the same
final state, the state being the one the engine's update of exactly these four
values left (followed by the lookup when rows were affected).  `CreateSegment`
hands the engine's insert the uuid the generator returned together with the
name, query and description of its input, whatever uuid the input carried: its
result and final state are those of that insert (followed by the lookup of the
new id), and when the generator fails nothing is inserted.  On the table
engine the row that ends up stored carries the generated uuid. -/
theorem C9_uuid_write_once (W : Storage σ) (q : Queries) (id : Int) (l1 l2 : Segment)
    (s : St σ) (hname : l1.Name = l2.Name) (hquery : l1.SegmentQuery = l2.SegmentQuery)
    (hdesc : l1.Description = l2.Description) :
    UpdateSegment W q id l1 s = UpdateSegment W q id l2 s ∧
    (∃ rest, (UpdateSegment W q id l1 s).2.trace =
      s.trace ++ .updateSegment id l1.Name l1.SegmentQuery l1.Description :: rest ∧
      ∀ a ∈ rest, a = lookupAction q id "") ∧
    (∀ u : String, CreateSegment W q { l1 with UUID := u } s = CreateSegment W q l1 s) ∧
    (∀ uu, (W.newV4 s.db).1 = .ok uu →
      ∃ rest, (CreateSegment W q l1 s).2.trace =
        s.trace ++ .newV4 :: .createSegment uu l1.Name l1.SegmentQuery l1.Description :: rest ∧
        ∀ a ∈ rest, ∃ newID, a = lookupAction q newID "") ∧
    (∀ err, (W.newV4 s.db).1 = .error err →
      (CreateSegment W q l1 s).2.trace = s.trace ++ [.newV4]) ∧
    ((UpdateSegment W q id l1 s).2.db =
        (W.updateSegment s.db id l1.Name l1.SegmentQuery l1.Description).2 ∨
      (UpdateSegment W q id l1 s).2.db =
        (lookupReply W q id ""
          (W.updateSegment s.db id l1.Name l1.SegmentQuery l1.Description).2).2) ∧
    (∀ uu, (W.newV4 s.db).1 = .ok uu →
      (∀ newID,
        (W.createSegment (W.newV4 s.db).2 uu l1.Name l1.SegmentQuery l1.Description).1
          = .ok newID →
        CreateSegment W q l1 s =
          GetSegment W q newID ""
            { db := (W.createSegment (W.newV4 s.db).2 uu
                l1.Name l1.SegmentQuery l1.Description).2,
              trace := s.trace ++
                [.newV4, .createSegment uu l1.Name l1.SegmentQuery l1.Description] }) ∧
      (∀ err,
        (W.createSegment (W.newV4 s.db).2 uu l1.Name l1.SegmentQuery l1.Description).1
          = .error err →
        CreateSegment W q l1 s =
          ((Segment.zero, some (createError q err)),
            { db := (W.createSegment (W.newV4 s.db).2 uu
                l1.Name l1.SegmentQuery l1.Description).2,
              trace := s.trace ++
                [.newV4, .createSegment uu l1.Name l1.SegmentQuery l1.Description] }))) ∧
    (∀ err, (W.newV4 s.db).1 = .error err →
      CreateSegment W q l1 s =
        ((Segment.zero, some (uuidError err)),
          { db := (W.newV4 s.db).2, trace := s.trace ++ [.newV4] })) ∧
    (∀ (rows : List Segment) (tr : List Action),
      (CreateSegment table q l1 { db := rows, trace := tr }).2.db =
        rows ++ [insertedRow ((rows.map fun r => r.ID).foldl max 0 + 1)
          ("uuid-" ++ toString rows.length) l1]) := by
  refine ⟨?_, ?_, ?_, ?_, ?_, ?_, ?_, ?_, ?_⟩
  · unfold UpdateSegment
    rw [hname, hquery, hdesc]
  · rw [UpdateSegment_eq]
    rcases hr : (W.updateSegment s.db id l1.Name l1.SegmentQuery l1.Description).1 with err | n
    · exact ⟨[], by simp [updateAction], by simp⟩
    · by_cases hn : n = 0
      · exact ⟨[], by simp [hn, updateAction], by simp⟩
      · refine ⟨[lookupAction q id ""], ?_, by simp⟩
        simp [hn, GetSegment_eq, updateAction]
  · intro u
    unfold CreateSegment
    rfl
  · intro uu huu
    rw [CreateSegment_eq]
    simp only [huu]
    rcases hc : (W.createSegment (W.newV4 s.db).2 uu l1.Name l1.SegmentQuery l1.Description).1
      with err | newID
    · exact ⟨[], by simp [createAction], by simp⟩
    · refine ⟨[lookupAction q newID ""], ?_, fun a ha => ⟨newID, by simpa using ha⟩⟩
      simp [GetSegment_eq, createAction]
  · intro err herr
    rw [CreateSegment_eq]
    simp [herr]
  · rw [UpdateSegment_eq]
    rcases hr : (W.updateSegment s.db id l1.Name l1.SegmentQuery l1.Description).1 with err | n
    · left; rfl
    · by_cases hn : n = 0
      · left; simp [hn]
      · right; simp [hn, GetSegment_eq]
  · intro uu huu
    rw [CreateSegment_eq]
    simp only [huu]
    constructor
    · intro newID hc
      simp [hc, createAction]
    · intro err hc
      simp [hc, createAction]
  · intro err herr
    rw [CreateSegment_eq]
    simp [herr]
  · intro rows tr
    rw [CreateSegment_eq]
    simp [table, GetSegment_eq, lookupReply, insertedRow]

/-- C9 at concrete inputs on the table engine: two updates of segment 7 that
differ only in the uuid they carry give the same result, in which the stored
uuid is unchanged; and creating a segment from an input that carries the uuid
`carried` stores and returns a row with the generated uuid `uuid-0`. -/
theorem C9_uuid_write_once_witness :
    UpdateSegment table sampleQueries 7 { sampleSegment with Name := "VIP", UUID := "other" }
        { db := [sampleSegment], trace := [] }
      = UpdateSegment table sampleQueries 7 { sampleSegment with Name := "VIP" }
        { db := [sampleSegment], trace := [] } ∧
    (UpdateSegment table sampleQueries 7 { sampleSegment with Name := "VIP", UUID := "other" }
        { db := [sampleSegment], trace := [] }).1.1.UUID = sampleSegment.UUID ∧
    (CreateSegment table sampleQueries { sampleSegment with UUID := "carried" }
        { db := [], trace := [] }).1
      = ({ insertedRow 1 "uuid-0" sampleSegment with Total := 1 }, none) ∧
    (CreateSegment table sampleQueries { sampleSegment with UUID := "carried" }
        { db := [], trace := [] }).2.db
      = [insertedRow 1 "uuid-0" sampleSegment] ∧
    (CreateSegment table sampleQueries { sampleSegment with UUID := "carried" }
        { db := [], trace := [] }).2.trace
      = [.newV4,
         .createSegment "uuid-0" "High value" sampleSegment.SegmentQuery "top spenders",
         .select "query-segments" 1 none "" 0 1] := by
  have hu := (C9_uuid_write_once table sampleQueries 7
      { sampleSegment with Name := "VIP", UUID := "other" } { sampleSegment with Name := "VIP" }
      { db := [sampleSegment], trace := [] } rfl rfl rfl).1
  have hc := ((C9_uuid_write_once table sampleQueries 7
      { sampleSegment with UUID := "carried" } sampleSegment
      { db := [], trace := [] } rfl rfl rfl).2.2.2.2.2.2.1 "uuid-0" rfl).1 1 rfl
  refine ⟨hu, by decide, ?_, ?_, ?_⟩
  · rw [hc]; decide
  · rw [hc]; decide
  · rw [hc]; decide

theorem strHasLen_iff (str : String) (max : Int) :
    strHasLen str 1 max = true ↔ 1 ≤ str.length ∧ (str.length : Int) ≤ max := by
  unfold strHasLen
  simp only [Bool.and_eq_true, decide_eq_true_eq]
  constructor
  · rintro ⟨h1, h2⟩; exact ⟨by omega, h2⟩
  · rintro ⟨h1, h2⟩; exact ⟨by omega, h2⟩

/-- C10: for a request whose bound segment name is empty or longer than
`stdInputMaxLen`, `handleCreateSegment` and `handleUpdateSegment` return a
status-400 error and leave the state untouched whatever `app.core` is, and make
no core call; and every core call the two handlers make carries a name of
length between 1 and `stdInputMaxLen` and, for the update, an id of at least 1. -/
theorem C10_name_bound_before_storage {τ : Type} (core : CoreAPI τ) (stdInputMaxLen : Int)
    (c : Context) (t : τ) (log : List CoreCall) :
    (∀ l, c.Bind = .ok l → (l.Name.length = 0 ∨ stdInputMaxLen < (l.Name.length : Int)) →
      handleCreateSegment core stdInputMaxLen c t = (.err invalidNameError, t) ∧
      (∃ e, e.Code = StatusBadRequest ∧
        handleUpdateSegment core stdInputMaxLen c t = (.err e, t)) ∧
      (handleCreateSegment logCore stdInputMaxLen c log).2 = log ∧
      (handleUpdateSegment logCore stdInputMaxLen c log).2 = log) ∧
    ((handleCreateSegment logCore stdInputMaxLen c log).2 = log ∨
      ∃ l, c.Bind = .ok l ∧
        (handleCreateSegment logCore stdInputMaxLen c log).2 = log ++ [.create l] ∧
        1 ≤ l.Name.length ∧ (l.Name.length : Int) ≤ stdInputMaxLen) ∧
    ((handleUpdateSegment logCore stdInputMaxLen c log).2 = log ∨
      ∃ l, c.Bind = .ok l ∧
        (handleUpdateSegment logCore stdInputMaxLen c log).2 = log ++ [.update c.ParamID l] ∧
        1 ≤ l.Name.length ∧ (l.Name.length : Int) ≤ stdInputMaxLen ∧ 1 ≤ c.ParamID) := by
  refine ⟨?_, ?_, ?_⟩
  · intro l hb hbad
    have hlen : strHasLen l.Name 1 stdInputMaxLen = false := by
      rw [Bool.eq_false_iff, Ne, strHasLen_iff]
      omega
    have hcreate : ∀ {τ1 : Type} (k : CoreAPI τ1) (t1 : τ1),
        handleCreateSegment k stdInputMaxLen c t1 = (.err invalidNameError, t1) := by
      intro τ1 k t1
      simp [handleCreateSegment, hb, hlen, invalidNameError]
    have hupdate : ∀ {τ1 : Type} (k : CoreAPI τ1) (t1 : τ1),
        ∃ e, e.Code = StatusBadRequest ∧
          handleUpdateSegment k stdInputMaxLen c t1 = (.err e, t1) := by
      intro τ1 k t1
      by_cases hid : c.ParamID < 1
      · exact ⟨NewHTTPError StatusBadRequest (T "globals.messages.invalidID"), rfl,
          by simp [handleUpdateSegment, hid]⟩
      · exact ⟨invalidNameError, rfl, by simp [handleUpdateSegment, hid, hb, hlen, invalidNameError]⟩
    refine ⟨hcreate core t, hupdate core t, by rw [hcreate logCore log], ?_⟩
    obtain ⟨e, _, he⟩ := hupdate logCore log
    rw [he]
  · unfold handleCreateSegment
    rcases hb : c.Bind with err | l
    · left; rfl
    · by_cases hlen : strHasLen l.Name 1 stdInputMaxLen = true
      · right
        refine ⟨l, rfl, by simp [hlen, logCore], (strHasLen_iff _ _).mp hlen⟩
      · left
        simp [hlen]
  · unfold handleUpdateSegment
    by_cases hid : c.ParamID < 1
    · left; simp [hid]
    · rcases hb : c.Bind with err | l
      · left; simp [hid]
      · by_cases hlen : strHasLen l.Name 1 stdInputMaxLen = true
        · right
          have h := (strHasLen_iff _ _).mp hlen
          exact ⟨l, rfl, by simp [hid, hlen, logCore], h.1, h.2, by omega⟩
        · left
          simp [hid, hlen]

/-- C10 at concrete inputs with the bound 2000: an empty name is refused by
both handlers with status 400 and no core call, also in front of the core over
the table engine, whose state and trace stay as they were; the name `VIP`
reaches the core once. -/
theorem C10_name_bound_before_storage_witness :
    handleCreateSegment logCore 2000 (namedRequest 7 "") [] = (.err invalidNameError, []) ∧
    (handleUpdateSegment logCore 2000 (namedRequest 7 "") []).2 = [] ∧
    handleCreateSegment (coreOf table sampleQueries) 2000 (namedRequest 7 "")
        { db := [sampleSegment], trace := [] }
      = (.err invalidNameError, { db := [sampleSegment], trace := [] }) ∧
    (handleUpdateSegment logCore 2000 (namedRequest 7 "VIP") []).2
      = [.update 7 { Segment.zero with Name := "VIP" }] := by
  have h := (C10_name_bound_before_storage logCore 2000 (namedRequest 7 "") [] []).1
    { Segment.zero with Name := "" } rfl (Or.inl rfl)
  have h2 := (C10_name_bound_before_storage (coreOf table sampleQueries) 2000
    (namedRequest 7 "") { db := [sampleSegment], trace := [] } []).1
    { Segment.zero with Name := "" } rfl (Or.inl rfl)
  exact ⟨h.1, h.2.2.2, h2.1, by decide⟩

end Listmonk
